import Mathlib

/-!
A shallow embedding of the revault demo's transaction engine
(`revault/transactions/__init__.py`) and stakeholder state machine
(`revault/vault.py`), with theorems checking the natural-language
specification against it.

Bytes are modelled as `Nat`, byte strings as `List Nat`, amounts as `Int`
(satoshis).  External cryptographic primitives (SHA256, BIP32 derivation,
ECDSA, the BIP143 sighash, address encoding) and external services
(bitcoind, the sig-server) are abstracted as fields of a context record
`Ctx`: the properties proved here hold for every instantiation of those
fields, matching the fact that the Python code treats them as black boxes.
-/

/-! ## Script opcodes and sighash flags (values from python-bitcoinlib) -/

def SIGHASH_ALL : Nat := 0x01

def SIGHASH_ANYONECANPAY : Nat := 0x80

/-- Flag `ALL_ANYONECANPAY = SIGHASH_ALL | SIGHASH_ANYONECANPAY`, the sighash
used for the signatures given to other stakeholders. -/
def ALL_ANYONECANPAY : Nat := SIGHASH_ALL ||| SIGHASH_ANYONECANPAY

def OP_0 : Nat := 0x00

def OP_2 : Nat := 0x52

def OP_3 : Nat := 0x53

def OP_4 : Nat := 0x54

def OP_6 : Nat := 0x56

def OP_IF : Nat := 0x63

def OP_ELSE : Nat := 0x67

def OP_ENDIF : Nat := 0x68

def OP_DROP : Nat := 0x75

def OP_DUP : Nat := 0x76

def OP_SWAP : Nat := 0x7c

def OP_EQUAL : Nat := 0x87

def OP_EQUALVERIFY : Nat := 0x88

def OP_ADD : Nat := 0x93

def OP_CHECKSIG : Nat := 0xac

def OP_CHECKSIGVERIFY : Nat := 0xad

def OP_CHECKMULTISIG : Nat := 0xae

def OP_CHECKSEQUENCEVERIFY : Nat := 0xb2

/-! ## CScript elements and their serialization

`CScript([...])` in python-bitcoinlib coerces each element: a `CScriptOp`
becomes its single opcode byte, an `int` becomes either an `OP_N` opcode
(0..16) or a minimal push of its little-endian script-number encoding
(`bn2vch`), and a byte string becomes a push (`encode_op_pushdata`). -/

inductive ScriptElt where
  | op : Nat → ScriptElt
  | num : Nat → ScriptElt
  | data : List Nat → ScriptElt
deriving DecidableEq

/-- Fuel-driven little-endian base-256 digit extraction; the fuel only
serves to make the recursion structural, `leBytes` always passes
enough. -/
def leBytesFuel : Nat → Nat → List Nat
  | 0, _ => []
  | fuel + 1, n => if n = 0 then [] else (n % 256) :: leBytesFuel fuel (n / 256)

/-- Little-endian base-256 digits of a natural number (empty for zero).
This is `bn2bin` composed with the byte reversal done by `mpi2vch`. -/
def leBytes (n : Nat) : List Nat :=
  leBytesFuel n n

/-- Fuel-driven bit counting; as with `leBytesFuel` the fuel only makes
the recursion structural. -/
def bitLengthFuel : Nat → Nat → Nat
  | 0, _ => 0
  | fuel + 1, n => if n = 0 then 0 else bitLengthFuel fuel (n / 2) + 1

/-- Python `int.bit_length()` for a natural number. -/
def bitLength (n : Nat) : Nat :=
  bitLengthFuel n n

/-- python-bitcoinlib `bn2vch` for a nonnegative value (the scripts here
only ever serialize nonnegative numbers): little-endian bytes, with a
trailing zero byte appended when the bit length is a multiple of eight
(the `have_ext` case, keeping the sign bit clear). -/
def bn2vch (v : Nat) : List Nat :=
  if v = 0 then []
  else if bitLength v % 8 = 0 then leBytes v ++ [0]
  else leBytes v

/-- python-bitcoinlib `CScriptOp.encode_op_pushdata`. -/
def encode_op_pushdata (d : List Nat) : List Nat :=
  if d.length < 0x4c then d.length :: d
  else if d.length ≤ 0xff then 0x4c :: d.length :: d
  else if d.length ≤ 0xffff then
    0x4d :: (d.length % 256) :: (d.length / 256) :: d
  else
    0x4e :: (d.length % 256) :: (d.length / 256 % 256) ::
      (d.length / 65536 % 256) :: (d.length / 16777216) :: d

/-- Coercion of a nonnegative `int` script element: `OP_N` for 0..16,
otherwise a push of `bn2vch`. -/
def scriptIntBytes (n : Nat) : List Nat :=
  if n = 0 then [OP_0]
  else if n ≤ 16 then [0x50 + n]
  else encode_op_pushdata (bn2vch n)

def serializeElt : ScriptElt → List Nat
  | .op n => [n]
  | .num n => scriptIntBytes n
  | .data d => encode_op_pushdata d

/-- Serialized bytes of a `CScript` built from the given elements. -/
def serializeScript (s : List ScriptElt) : List Nat :=
  s.flatMap serializeElt

/-! ## The three witness scripts (`revault/transactions/__init__.py`) -/

/-- Python `vault_script(pubkeys)`: a 4of4 `CHECKMULTISIG` over the stakeholder
pubkeys (the list is spliced in slot order). -/
def vault_script (pubkeys : List (List Nat)) : List ScriptElt :=
  [.op OP_4] ++ pubkeys.map .data ++ [.op OP_4, .op OP_CHECKMULTISIG]

/-- Python `unvault_script(pub_trader1, pub_trader2, pub1, pub2, pub_server)`. -/
def unvault_script (pub_trader1 pub_trader2 pub1 pub2 pub_server : List Nat) :
    List ScriptElt :=
  [.data pub_trader1, .op OP_CHECKSIG, .op OP_SWAP, .data pub_trader2,
   .op OP_CHECKSIG, .op OP_ADD, .op OP_SWAP, .data pub1, .op OP_CHECKSIG,
   .op OP_ADD, .op OP_DUP, .op OP_3, .op OP_EQUAL, .op OP_IF, .op OP_DROP,
   .data pub2, .op OP_CHECKSIG, .op OP_ELSE, .op OP_2, .op OP_EQUALVERIFY,
   .data pub_server, .op OP_CHECKSIGVERIFY, .op OP_6,
   .op OP_CHECKSEQUENCEVERIFY, .op OP_ENDIF]

/-- The Python sources call `unvault_script(*pubkeys, pub_server)`,
unpacking the four stakeholder pubkeys; a list of any other length raises
a `TypeError` in Python, modelled by the empty script (every caller in
the engine passes the four pubkeys of a vault record). -/
def unvault_script_of (pubkeys : List (List Nat)) (pub_server : List Nat) :
    List ScriptElt :=
  match pubkeys with
  | [p1, p2, p3, p4] => unvault_script p1 p2 p3 p4 pub_server
  | _ => []

/-- Python `emergency_script(pubkeys)`: a CSV timelock of 4464 blocks (about a
month) followed by a 4of4 over the offline keys. -/
def emergency_script (pubkeys : List (List Nat)) : List ScriptElt :=
  [.num 4464, .op OP_CHECKSEQUENCEVERIFY, .op OP_DROP, .op OP_4] ++
    pubkeys.map .data ++ [.op OP_4, .op OP_CHECKMULTISIG]

/-! ## Transactions

A `CMutableTransaction([txin], [txout], nVersion=2)` starts with
`nLockTime = 0` and an empty witness; `tx.wit = CTxWitness([w])` replaces
the witness and nothing else.  The witness of one input is a stack of
byte strings. -/

structure COutPoint where
  txid : List Nat
  n : Nat
deriving DecidableEq

structure CTxIn where
  prevout : COutPoint
  nSequence : Nat
deriving DecidableEq

structure CTxOut where
  nValue : Int
  scriptPubKey : List Nat
deriving DecidableEq

structure CTx where
  vin : List CTxIn
  vout : List CTxOut
  nVersion : Nat
  nLockTime : Nat
  wit : List (List (List Nat))
deriving DecidableEq

/-- The abstract context: cryptographic primitives, key material and
external services the engine calls into.  Every theorem below holds for
an arbitrary context unless it instantiates one concretely. -/
structure Ctx where
  /-- SHA256 digest of a byte string (used for the P2WSH program). -/
  sha256 : List Nat → List Nat
  /-- Call `CBitcoinAddress.from_scriptPubKey(...)` rendered as a string. -/
  addrOfScript : List Nat → String
  /-- Call `CBitcoinAddress(address).to_scriptPubKey()`. -/
  addrScriptPubKey : String → List Nat
  /-- Call `CKey(privkey).sign(tx_hash)`: the raw ECDSA signature bytes. -/
  ecdsaSign : List Nat → List Nat → List Nat
  /-- Call `SignatureHash(script, tx, 0, hashtype, amount, SIGVERSION_WITNESS_V0)`. -/
  signatureHash : List ScriptElt → CTx → Nat → Nat → Int → List Nat
  /-- Method `tx.GetTxid()`. -/
  getTxid : CTx → List Nat
  /-- Hex rendering of a byte string (`bytes.hex()`). -/
  hexOf : List Nat → String
  /-- Call `bitcoin.core.lx`: hex string to reversed bytes. -/
  lx : String → List Nat
  /-- BIP32 pubkey derivation: `keychains[slot].get_pubkey_from_path([i])`
  (with the local slot served by `our_bip32`). -/
  derive_pubkey : Fin 4 → Nat → List Nat
  /-- Method `our_bip32.get_privkey_from_path([i])`. -/
  our_privkey : Nat → List Nat
  /-- Value `self.keychains.index(None)`: the local stakeholder's slot (0-based). -/
  ourIdx : Fin 4
  /-- Field `self.cosigner_pubkey`, fetched from the cosigning server. -/
  cosigner_pubkey : List Nat
  /-- Field `self.emergency_pubkeys`, the four offline keys. -/
  emergency_pubkeys : List (List Nat)
  /-- Method `self.sigserver.get_feerate(kind, txid)`. -/
  sigserver_feerate : String → String → Int
  /-- Method `self.bitcoind.getfeerate(kind)`. -/
  bitcoind_getfeerate : String → Int
  /-- Method `self.bitcoind.tx_size(tx)`. -/
  tx_size : CTx → Int
  /-- Modelled from the spec: `utils.tx_feerate(bitcoind, tx, amount?)`
  (`revault/utils.py` is not part of the sources given), the current
  effective fee-rate of a pre-signed transaction, fee divided by vbytes. -/
  tx_feerate : CTx → Option Int → Int
  /-- Modelled from the spec: `utils.bump_feerate(bitcoind, tx, delta,
  amount?)` (`revault/utils.py` is not part of the sources given), the
  fee-bumped transaction with an appended wallet-funded input. -/
  bump_feerate : CTx → Int → Option Int → CTx

/-- Constant `bitcoin.core.COIN`, in satoshis. -/
def COIN : Int := 100000000

/-- P2WSH wrapping of a witness script. -/
def p2wsh (ctx : Ctx) (script : List ScriptElt) : List Nat :=
  serializeScript [.op OP_0, .data (ctx.sha256 (serializeScript script))]

/-- Python `vault_txout(pubkeys, value)`. -/
def vault_txout (ctx : Ctx) (pubkeys : List (List Nat)) (value : Int) :
    CTxOut :=
  { nValue := value, scriptPubKey := p2wsh ctx (vault_script pubkeys) }

/-- Python `unvault_txout(pubkeys, pub_server, value)`. -/
def unvault_txout (ctx : Ctx) (pubkeys : List (List Nat))
    (pub_server : List Nat) (value : Int) : CTxOut :=
  { nValue := value,
    scriptPubKey := p2wsh ctx (unvault_script_of pubkeys pub_server) }

/-- Python `emergency_txout(pubkeys, value)`. -/
def emergency_txout (ctx : Ctx) (pubkeys : List (List Nat)) (value : Int) :
    CTxOut :=
  { nValue := value, scriptPubKey := p2wsh ctx (emergency_script pubkeys) }

/-- Python `create_spend_vault_txout(vault_txid, vault_vout, txout, rbf)`:
one input spending the vault outpoint, one output, nVersion 2.  The
Python default for `rbf` is `False`. -/
def create_spend_vault_txout (vault_txid : List Nat) (vault_vout : Nat)
    (txout : CTxOut) (rbf : Bool) : CTx :=
  { vin := [{ prevout := { txid := vault_txid, n := vault_vout },
              nSequence := if rbf then 0xfffffffe else 0xffffffff }],
    vout := [txout], nVersion := 2, nLockTime := 0, wit := [] }

/-- Python `form_spend_vault_txout(tx, pubkeys, sigs)`: attaches the witness
stack `[bytes(0), *sigs, vault_script(pubkeys)]` (the leading empty
element is the CHECKMULTISIG dummy). -/
def form_spend_vault_txout (tx : CTx) (pubkeys : List (List Nat))
    (sigs : List (List Nat)) : CTx :=
  { tx with
    wit := [[] :: sigs ++ [serializeScript (vault_script pubkeys)]] }

/-- Python `create_unvault_tx(vault_txid, vault_vout, pubkeys, pub_server,
value)`: spends the vault outpoint without the RBF flag. -/
def create_unvault_tx (ctx : Ctx) (vault_txid : List Nat) (vault_vout : Nat)
    (pubkeys : List (List Nat)) (pub_server : List Nat) (value : Int) : CTx :=
  create_spend_vault_txout vault_txid vault_vout
    (unvault_txout ctx pubkeys pub_server value) false

/-- Python `sign_unvault_tx(tx, privkey, pubkeys, prev_value)`: always
SIGHASH_ALL. -/
def sign_unvault_tx (ctx : Ctx) (tx : CTx) (privkey : List Nat)
    (pubkeys : List (List Nat)) (prev_value : Int) : List Nat :=
  ctx.ecdsaSign privkey
    (ctx.signatureHash (vault_script pubkeys) tx 0 SIGHASH_ALL prev_value)
    ++ [SIGHASH_ALL]

/-- Python `form_unvault_tx(tx, pubkeys, sigs)`. -/
def form_unvault_tx (tx : CTx) (pubkeys : List (List Nat))
    (sigs : List (List Nat)) : CTx :=
  form_spend_vault_txout tx pubkeys sigs

/-- Python `create_emergency_vault_tx(vault_txid, vault_vout, value,
emer_pubkeys)`: spends the vault outpoint with the RBF flag set. -/
def create_emergency_vault_tx (ctx : Ctx) (vault_txid : List Nat)
    (vault_vout : Nat) (value : Int) (emer_pubkeys : List (List Nat)) : CTx :=
  create_spend_vault_txout vault_txid vault_vout
    (emergency_txout ctx emer_pubkeys value) true

/-- Python `sign_emergency_vault_tx(tx, privkey, pubkeys, prev_value, sign_all)`:
ALL if `sign_all` else ALL | ANYONECANPAY.  The Python default for
`sign_all` is `False`. -/
def sign_emergency_vault_tx (ctx : Ctx) (tx : CTx) (privkey : List Nat)
    (pubkeys : List (List Nat)) (prev_value : Int) (sign_all : Bool) :
    List Nat :=
  let sighash := if sign_all then SIGHASH_ALL else ALL_ANYONECANPAY
  ctx.ecdsaSign privkey
    (ctx.signatureHash (vault_script pubkeys) tx 0 sighash prev_value)
    ++ [sighash]

/-- Python `form_emergency_vault_tx(tx, pubkeys, sigs)`. -/
def form_emergency_vault_tx (tx : CTx) (pubkeys : List (List Nat))
    (sigs : List (List Nat)) : CTx :=
  form_spend_vault_txout tx pubkeys sigs

/-- Python `create_unvault_spend(unvault_txid, unvault_vout, txout, rbf)`. -/
def create_unvault_spend (unvault_txid : List Nat) (unvault_vout : Nat)
    (txout : CTxOut) (rbf : Bool) : CTx :=
  { vin := [{ prevout := { txid := unvault_txid, n := unvault_vout },
              nSequence := if rbf then 0xfffffffe else 0xffffffff }],
    vout := [txout], nVersion := 2, nLockTime := 0, wit := [] }

/-- Python `sign_unvault_revault(tx, privkey, pubkeys, pub_server, prev_value,
sign_all)`: the all-stakeholders path of the unvault script, used by both
the cancel and the unvault-emergency; ALL | ANYONECANPAY unless
`sign_all` (Python default `False`). -/
def sign_unvault_revault (ctx : Ctx) (tx : CTx) (privkey : List Nat)
    (pubkeys : List (List Nat)) (pub_server : List Nat) (prev_value : Int)
    (sign_all : Bool) : List Nat :=
  let sighash := if sign_all then SIGHASH_ALL else ALL_ANYONECANPAY
  ctx.ecdsaSign privkey
    (ctx.signatureHash (unvault_script_of pubkeys pub_server) tx 0 sighash
      prev_value) ++ [sighash]

/-- Python `form_unvault_spend(tx, sigs, pubkeys, pub_server)`: the four
signatures in reverse order followed by the unvault script; no leading
empty element since the script uses no CHECKMULTISIG. -/
def form_unvault_spend (tx : CTx) (sigs : List (List Nat))
    (pubkeys : List (List Nat)) (pub_server : List Nat) : CTx :=
  { tx with
    wit := [sigs.reverse ++
              [serializeScript (unvault_script_of pubkeys pub_server)]] }

/-- Python `create_cancel_tx(unvault_txid, unvault_vout, pubkeys, value)`: pays
back to a vault output, RBF signalled. -/
def create_cancel_tx (ctx : Ctx) (unvault_txid : List Nat)
    (unvault_vout : Nat) (pubkeys : List (List Nat)) (value : Int) : CTx :=
  create_unvault_spend unvault_txid unvault_vout
    (vault_txout ctx pubkeys value) true

/-- Python `sign_cancel_tx` delegates to `sign_unvault_revault`. -/
def sign_cancel_tx (ctx : Ctx) (tx : CTx) (privkey : List Nat)
    (pubkeys : List (List Nat)) (pub_server : List Nat) (prev_value : Int)
    (sign_all : Bool) : List Nat :=
  sign_unvault_revault ctx tx privkey pubkeys pub_server prev_value sign_all

/-- Python `form_cancel_tx` delegates to `form_unvault_spend`. -/
def form_cancel_tx (tx : CTx) (sigs : List (List Nat))
    (pubkeys : List (List Nat)) (pub_server : List Nat) : CTx :=
  form_unvault_spend tx sigs pubkeys pub_server

/-- Python `create_emer_unvault_tx(unvault_txid, unvault_vout, emer_pubkeys,
value)`: pays to the emergency output, RBF signalled. -/
def create_emer_unvault_tx (ctx : Ctx) (unvault_txid : List Nat)
    (unvault_vout : Nat) (emer_pubkeys : List (List Nat)) (value : Int) :
    CTx :=
  create_unvault_spend unvault_txid unvault_vout
    (emergency_txout ctx emer_pubkeys value) true

/-- Python `sign_emer_unvault_tx` delegates to `sign_unvault_revault`. -/
def sign_emer_unvault_tx (ctx : Ctx) (tx : CTx) (privkey : List Nat)
    (pubkeys : List (List Nat)) (pub_server : List Nat) (prev_value : Int)
    (sign_all : Bool) : List Nat :=
  sign_unvault_revault ctx tx privkey pubkeys pub_server prev_value sign_all

/-- Python `form_emer_unvault_tx` delegates to `form_unvault_spend`. -/
def form_emer_unvault_tx (tx : CTx) (sigs : List (List Nat))
    (pubkeys : List (List Nat)) (pub_server : List Nat) : CTx :=
  form_unvault_spend tx sigs pubkeys pub_server

/-- Python `create_spend_tx(unvault_txid, unvault_vout, addresses)`: one input
with nSequence 6, one output per address map entry, nVersion 2. -/
def create_spend_tx (ctx : Ctx) (unvault_txid : List Nat)
    (unvault_vout : Nat) (addresses : List (String × Int)) : CTx :=
  { vin := [{ prevout := { txid := unvault_txid, n := unvault_vout },
              nSequence := 6 }],
    vout := addresses.map fun av =>
      { nValue := av.2, scriptPubKey := ctx.addrScriptPubKey av.1 },
    nVersion := 2, nLockTime := 0, wit := [] }

/-- Python `sign_spend_tx(tx, privkey, pubkeys, pub_server, prev_value)`:
always SIGHASH_ALL, over the unvault script. -/
def sign_spend_tx (ctx : Ctx) (tx : CTx) (privkey : List Nat)
    (pubkeys : List (List Nat)) (pub_server : List Nat) (prev_value : Int) :
    List Nat :=
  ctx.ecdsaSign privkey
    (ctx.signatureHash (unvault_script_of pubkeys pub_server) tx 0
      SIGHASH_ALL prev_value) ++ [SIGHASH_ALL]

/-- Python `form_spend_tx(tx, pubkeys, serv_pubkey, sigs)`: the four signatures
reversed, followed by the unvault script. -/
def form_spend_tx (tx : CTx) (pubkeys : List (List Nat))
    (serv_pubkey : List Nat) (sigs : List (List Nat)) : CTx :=
  { tx with
    wit := [sigs.reverse ++
              [serializeScript (unvault_script_of pubkeys serv_pubkey)]] }

/-! ## The stakeholder engine (`revault/vault.py`)

The engine's per-vault dictionary is modelled by `VaultRec`; the
signature tables are four-slot lists of optional signatures.  The
engine's interactions with bitcoind and the sig-server go through the
abstract `Ctx` fields; where a function talks to a fee-rate source, the
embedding additionally returns the list of fee-rate fetches it performed
so that theorems can speak about the keys used. -/

/-- A fee-rate fetch performed by the engine: either
`sigserver.get_feerate(kind, txid)` or `bitcoind.getfeerate(kind)`. -/
inductive FeerateFetch where
  | sigserver : String → FeerateFetch
  | bitcoind : String → FeerateFetch
deriving DecidableEq

/-- One entry of `self.vaults`, as filled in by `add_new_vault` (the
transaction fields are always set before the record is appended, so they
are not optional here).  The `amount` is in satoshis, after the
BTC-to-satoshi conversion done on the `listunspent` entry. -/
structure VaultRec where
  txid : String
  vout : Nat
  amount : Int
  pubkeys : List (List Nat)
  privkey : List Nat
  address : String
  emergency_tx : CTx
  emergency_sigs : List (Option (List Nat))
  emergency_signed : Bool
  unvault_tx : CTx
  unvault_sigs : List (Option (List Nat))
  unvault_signed : Bool
  cancel_tx : CTx
  cancel_sigs : List (Option (List Nat))
  unvault_emer_tx : CTx
  unvault_emer_sigs : List (Option (List Nat))
  unvault_secure : Bool
deriving DecidableEq

/-- Method `self.get_pubkeys(index)`: the four slot-ordered pubkeys at a
derivation index. -/
def get_pubkeys (ctx : Ctx) (index : Nat) : List (List Nat) :=
  [ctx.derive_pubkey 0 index, ctx.derive_pubkey 1 index,
   ctx.derive_pubkey 2 index, ctx.derive_pubkey 3 index]

/-- Method `self.get_vault_address(index)`. -/
def get_vault_address (ctx : Ctx) (index : Nat) : String :=
  ctx.addrOfScript (vault_txout ctx (get_pubkeys ctx index) 0).scriptPubKey

/-- Method `self.guess_index(vault_address)`: scans `range(self.max_index)` --
all indices from 0 up to (excluding) `max_index` -- and returns the
first one whose vault address equals the given address. -/
def guess_index (ctx : Ctx) (max_index : Nat) (vault_address : String) :
    Option Nat :=
  (List.range max_index).find? fun index =>
    vault_address == get_vault_address ctx index

/-- Reads `tx.vout[0]` (Python raises IndexError when there is no output; the
engine only ever reads the first output of the one-output transactions
it built itself, so a default is never observable in the claims). -/
def vout0 (tx : CTx) : CTxOut :=
  tx.vout.headD { nValue := 0, scriptPubKey := [] }

/-- Result of the `create_sign_emergency` / `create_sign_cancel` /
`create_sign_unvault_emer` helpers: the finalized unsigned template, the
signature stored into the local slot of the table, the signature to be
shared through the sig-server, and the fee-rate fetches performed. -/
structure CSRes where
  tx : CTx
  own_sig : List Nat
  shared_sig : List Nat
  fetches : List FeerateFetch
deriving DecidableEq

/-- Result of `create_sign_unvault`: the unvault template, our
SIGHASH_ALL signature (kept local until the vault is secure), and the
fee-rate fetches performed. -/
structure CSUnvaultRes where
  tx : CTx
  sig : List Nat
  fetches : List FeerateFetch
deriving DecidableEq

/-- Python `Vault.create_sign_emergency(vault)`: builds a dummy template at one
COIN to measure the size, fetches the target fee-rate under the key
"emergency", builds the real template, and signs it twice (own slot with
ALL, shared with ALL | ANYONECANPAY).  The `assert` on the template shape
is modelled by the error case. -/
def create_sign_emergency (ctx : Ctx) (txid : String) (vout : Nat)
    (amount : Int) (pubkeys : List (List Nat)) (privkey : List Nat) :
    Except String CSRes :=
  let dummy_tx := create_emergency_vault_tx ctx (ctx.lx txid) vout COIN
    ctx.emergency_pubkeys
  let feerate := ctx.sigserver_feerate "emergency"
    (ctx.hexOf (ctx.getTxid dummy_tx))
  let fees := feerate * ctx.tx_size dummy_tx
  let emergency_tx := create_emergency_vault_tx ctx (ctx.lx txid) vout
    (amount - fees) ctx.emergency_pubkeys
  if emergency_tx.vin.length = 1 ∧ emergency_tx.vout.length = 1 then
    .ok { tx := emergency_tx,
          own_sig := sign_emergency_vault_tx ctx emergency_tx privkey
            pubkeys amount true,
          shared_sig := sign_emergency_vault_tx ctx emergency_tx privkey
            pubkeys amount false,
          fetches := [.sigserver "emergency"] }
  else .error "AssertionError"

/-- Python `Vault.create_sign_unvault(vault)`: dummy template, target fee-rate
under the key "cancel", real template, one SIGHASH_ALL signature. -/
def create_sign_unvault (ctx : Ctx) (txid : String) (vout : Nat)
    (amount : Int) (pubkeys : List (List Nat)) (privkey : List Nat) :
    CSUnvaultRes :=
  let dummy_tx := create_unvault_tx ctx (ctx.lx txid) vout pubkeys
    ctx.cosigner_pubkey COIN
  let feerate := ctx.sigserver_feerate "cancel"
    (ctx.hexOf (ctx.getTxid dummy_tx))
  let unvault_amount := amount - feerate * ctx.tx_size dummy_tx
  let unvault_tx := create_unvault_tx ctx (ctx.lx txid) vout pubkeys
    ctx.cosigner_pubkey unvault_amount
  { tx := unvault_tx,
    sig := sign_unvault_tx ctx unvault_tx privkey pubkeys amount,
    fetches := [.sigserver "cancel"] }

/-- Python `Vault.create_sign_cancel(vault)`: asserts the unvault has a single
output, fetches the target fee-rate under the key "cancel", builds the
cancel template paying back to the same vault script, and signs it twice
(own slot with ALL, shared with ALL | ANYONECANPAY). -/
def create_sign_cancel (ctx : Ctx) (unvault_tx : CTx)
    (pubkeys : List (List Nat)) (privkey : List Nat) :
    Except String CSRes :=
  let unvault_txid := ctx.getTxid unvault_tx
  let unvault_amount := (vout0 unvault_tx).nValue
  if unvault_tx.vout.length = 1 then
    let dummy_tx := create_cancel_tx ctx unvault_txid 0 pubkeys COIN
    let feerate := ctx.sigserver_feerate "cancel"
      (ctx.hexOf (ctx.getTxid dummy_tx))
    let cancel_amount := unvault_amount - feerate * ctx.tx_size dummy_tx
    let cancel_tx := create_cancel_tx ctx unvault_txid 0 pubkeys
      cancel_amount
    if cancel_tx.vin.length = 1 ∧ cancel_tx.vout.length = 1 then
      .ok { tx := cancel_tx,
            own_sig := sign_cancel_tx ctx cancel_tx privkey pubkeys
              ctx.cosigner_pubkey unvault_amount true,
            shared_sig := sign_cancel_tx ctx cancel_tx privkey pubkeys
              ctx.cosigner_pubkey unvault_amount false,
            fetches := [.sigserver "cancel"] }
    else .error "AssertionError"
  else .error "AssertionError"

/-- Python `Vault.create_sign_unvault_emer(vault)`: fetches the target fee-rate
under the key "emergency", builds the unvault-emergency template, and
signs it twice.  Both signatures use the Python default
`sign_all=False`, so the own-slot signature here is ALL | ANYONECANPAY
(unlike the emergency and cancel own-slot signatures). -/
def create_sign_unvault_emer (ctx : Ctx) (unvault_tx : CTx)
    (pubkeys : List (List Nat)) (privkey : List Nat) :
    Except String CSRes :=
  let unvault_txid := ctx.getTxid unvault_tx
  let unvault_amount := (vout0 unvault_tx).nValue
  let dummy_tx := create_emer_unvault_tx ctx unvault_txid 0
    ctx.emergency_pubkeys COIN
  let feerate := ctx.sigserver_feerate "emergency"
    (ctx.hexOf (ctx.getTxid dummy_tx))
  let emer_amount := unvault_amount - feerate * ctx.tx_size dummy_tx
  let unvault_emer_tx := create_emer_unvault_tx ctx unvault_txid 0
    ctx.emergency_pubkeys emer_amount
  if unvault_emer_tx.vin.length = 1 ∧ unvault_emer_tx.vout.length = 1 then
    .ok { tx := unvault_emer_tx,
          own_sig := sign_emer_unvault_tx ctx unvault_emer_tx privkey
            pubkeys ctx.cosigner_pubkey unvault_amount false,
          shared_sig := sign_emer_unvault_tx ctx unvault_emer_tx privkey
            pubkeys ctx.cosigner_pubkey unvault_amount false,
          fetches := [.sigserver "emergency"] }
  else .error "AssertionError"

/-- A four-slot signature table with only the given slot filled. -/
def ownOnlyTable (ourIdx : Fin 4) (sig : List Nat) :
    List (Option (List Nat)) :=
  ([none, none, none, none] : List (Option (List Nat))).set ourIdx
    (some sig)

/-- One entry of bitcoind's `listunspent` answer (the amount already
converted from BTC to satoshis). -/
structure ListUnspentEntry where
  txid : String
  vout : Nat
  amount : Int
  address : String
deriving DecidableEq

/-- Python `Vault.add_new_vault(output)`: guesses the derivation index from the
address (raising when no index below `max_index` matches), derives the
keys, builds and signs the four templates, and returns the new vault
record together with the three shared signatures sent to the sig-server
(keyed by txid hex) and the fee-rate fetches performed.  The caller
appends the record to `self.vaults`; on error nothing is appended. -/
def add_new_vault (ctx : Ctx) (max_index : Nat)
    (output : ListUnspentEntry) :
    Except String (VaultRec × List (String × List Nat) × List FeerateFetch) := do
  match guess_index ctx max_index output.address with
  | none => .error "No such vault script with our known pubkeys !"
  | some index =>
    let pubkeys := get_pubkeys ctx index
    let privkey := ctx.our_privkey index
    let e ← create_sign_emergency ctx output.txid output.vout output.amount
      pubkeys privkey
    let u := create_sign_unvault ctx output.txid output.vout output.amount
      pubkeys privkey
    -- `watch_unvault` asserts the unvault template has exactly one output
    if u.tx.vout.length = 1 then
      let c ← create_sign_cancel ctx u.tx pubkeys privkey
      let ue ← create_sign_unvault_emer ctx u.tx pubkeys privkey
      .ok ({ txid := output.txid, vout := output.vout,
             amount := output.amount, pubkeys := pubkeys,
             privkey := privkey, address := output.address,
             emergency_tx := e.tx,
             emergency_sigs := ownOnlyTable ctx.ourIdx e.own_sig,
             emergency_signed := false,
             unvault_tx := u.tx,
             unvault_sigs := ownOnlyTable ctx.ourIdx u.sig,
             unvault_signed := false,
             cancel_tx := c.tx,
             cancel_sigs := ownOnlyTable ctx.ourIdx c.own_sig,
             unvault_emer_tx := ue.tx,
             unvault_emer_sigs := ownOnlyTable ctx.ourIdx ue.own_sig,
             unvault_secure := false },
           [(ctx.hexOf (ctx.getTxid e.tx), e.shared_sig),
            (ctx.hexOf (ctx.getTxid c.tx), c.shared_sig),
            (ctx.hexOf (ctx.getTxid ue.tx), ue.shared_sig)],
           e.fetches ++ u.fetches ++ c.fetches ++ ue.fetches)
    else .error "AssertionError"

/-- The table values passed to the `form_*` helpers once the guard has
checked that no slot is `None` (every slot is present at that point). -/
def unwrapSigs (sigs : List (Option (List Nat))) : List (List Nat) :=
  sigs.map (Option.getD · [])

/-- Python `Vault.get_signed_emergency_tx(vault)`: `None` while a signature is
missing; otherwise compares the pre-signed fee-rate against
`bitcoind.getfeerate("emergency")` and either fee-bumps (after swapping
the own-slot ALL signature for an ALL | ANYONECANPAY one) or forms the
transaction as-is.  The second component lists the target fee-rate
fetches performed. -/
def get_signed_emergency_tx (ctx : Ctx) (v : VaultRec) :
    Option CTx × List FeerateFetch :=
  if v.emergency_sigs.contains none then (none, [])
  else
    let feerate := ctx.tx_feerate v.emergency_tx none
    let minimal_feerate := ctx.bitcoind_getfeerate "emergency"
    if feerate < minimal_feerate then
      let sig := sign_emergency_vault_tx ctx v.emergency_tx v.privkey
        v.pubkeys v.amount false
      let sigs := v.emergency_sigs.set ctx.ourIdx (some sig)
      let tx := form_emergency_vault_tx v.emergency_tx v.pubkeys
        (unwrapSigs sigs)
      (some (ctx.bump_feerate tx (minimal_feerate - feerate) none),
       [.bitcoind "emergency"])
    else
      (some (form_emergency_vault_tx v.emergency_tx v.pubkeys
        (unwrapSigs v.emergency_sigs)), [.bitcoind "emergency"])

/-- Python `Vault.get_signed_unvault_tx(vault)`: forms the unvault once all
four signatures are in; no fee-rate fetch is performed for it. -/
def get_signed_unvault_tx (_ctx : Ctx) (v : VaultRec) :
    Option CTx × List FeerateFetch :=
  if v.unvault_sigs.contains none then (none, [])
  else
    (some (form_unvault_tx v.unvault_tx v.pubkeys
      (unwrapSigs v.unvault_sigs)), [])

/-- Python `Vault.get_signed_cancel_tx(vault)`: as for the emergency, with the
target fee-rate fetched under the key "cancel". -/
def get_signed_cancel_tx (ctx : Ctx) (v : VaultRec) :
    Option CTx × List FeerateFetch :=
  if v.cancel_sigs.contains none then (none, [])
  else
    let unvault_amount := (vout0 v.unvault_tx).nValue
    let feerate := ctx.tx_feerate v.cancel_tx (some unvault_amount)
    let minimal_feerate := ctx.bitcoind_getfeerate "cancel"
    if feerate < minimal_feerate then
      let sig := sign_cancel_tx ctx v.cancel_tx v.privkey v.pubkeys
        ctx.cosigner_pubkey unvault_amount false
      let sigs := v.cancel_sigs.set ctx.ourIdx (some sig)
      let tx := form_cancel_tx v.cancel_tx (unwrapSigs sigs) v.pubkeys
        ctx.cosigner_pubkey
      (some (ctx.bump_feerate tx (minimal_feerate - feerate)
        (some unvault_amount)), [.bitcoind "cancel"])
    else
      (some (form_cancel_tx v.cancel_tx (unwrapSigs v.cancel_sigs)
        v.pubkeys ctx.cosigner_pubkey), [.bitcoind "cancel"])

/-- Python `Vault.get_signed_unvault_emergency_tx(vault)`: same shape as the
cancel.  Note the source fetches the broadcast-time target fee-rate with
`self.bitcoind.getfeerate("cancel")` here, not "emergency". -/
def get_signed_unvault_emergency_tx (ctx : Ctx) (v : VaultRec) :
    Option CTx × List FeerateFetch :=
  if v.unvault_emer_sigs.contains none then (none, [])
  else
    let unvault_amount := (vout0 v.unvault_tx).nValue
    let feerate := ctx.tx_feerate v.unvault_emer_tx (some unvault_amount)
    let minimal_feerate := ctx.bitcoind_getfeerate "cancel"
    if feerate < minimal_feerate then
      let sig := sign_emer_unvault_tx ctx v.unvault_emer_tx v.privkey
        v.pubkeys ctx.cosigner_pubkey unvault_amount false
      let sigs := v.unvault_emer_sigs.set ctx.ourIdx (some sig)
      let tx := form_emer_unvault_tx v.unvault_emer_tx (unwrapSigs sigs)
        v.pubkeys ctx.cosigner_pubkey
      (some (ctx.bump_feerate tx (minimal_feerate - feerate)
        (some unvault_amount)), [.bitcoind "cancel"])
    else
      (some (form_emer_unvault_tx v.unvault_emer_tx
        (unwrapSigs v.unvault_emer_sigs) v.pubkeys ctx.cosigner_pubkey),
       [.bitcoind "cancel"])

/-! ## The spend poller (`Vault.poll_for_spends`) -/

/-- The decision `poll_for_spends` takes on one new proposal, given the
watched vault addresses, the operator's `acked_addresses` and the
proposal's output addresses: `true` means `accept_spend` is sent to the
sig-server, `false` means `refuse_spend`.  This is the body of the
polling loop for a txid not yet in `known_spends`. -/
def poll_for_spends_decision (vault_addresses acked_addresses : List String)
    (outputs : List String) : Bool :=
  let valid_addresses := vault_addresses ++ acked_addresses
  -- "If an output pays to an unknown address refuse."
  if outputs.any fun address => !(valid_addresses.contains address) then
    false
  -- "If there is no output to a known address (just change), refuse."
  -- (The source tests `any(address not in acked_addresses)` here.)
  else if outputs.any fun address => !(acked_addresses.contains address) then
    false
  else true

/-- Modelled from the spec (section 4.6, engine loop 2, and P8): the
acceptance predicate the specification prescribes -- every output
address is a known vault address or an acked address, and at least one
output pays an acked address. -/
def spend_acceptance_spec (vault_addresses acked_addresses : List String)
    (outputs : List String) : Bool :=
  (outputs.all fun address =>
    vault_addresses.contains address || acked_addresses.contains address) &&
  (outputs.any fun address => acked_addresses.contains address)

/-! ## The signature fetchers as a transition system

`update_all_signatures` runs one fetcher thread per vault for the
emergency table and one for the unvault-revocations; each loop iteration
polls the sig-server for one slot and stores the answer.  The
interleaving of those loop iterations with the sig-server's answers is
modelled as a list of events applied to a signature state.  An event
whose assertion fails maps the state to `none` (the Python
`AssertionError` kills the fetcher thread and the signature is never
stored). -/

/-- The per-vault signature-fetching state: the four signature tables,
the flags, and whether our unvault signature has been sent to the
sig-server. -/
structure SigState where
  emergency_sigs : List (Option (List Nat))
  cancel_sigs : List (Option (List Nat))
  unvault_emer_sigs : List (Option (List Nat))
  unvault_sigs : List (Option (List Nat))
  emergency_signed : Bool
  unvault_secure : Bool
  unvault_signed : Bool
  sent_unvault_sig : Bool
deriving DecidableEq

/-- The state the fetchers start from for a fresh vault record, as built
by `add_new_vault`: the tables hold only our own signatures, no flag is
set, and our unvault signature has not been sent anywhere. -/
def freshSigState (v : VaultRec) : SigState :=
  { emergency_sigs := v.emergency_sigs,
    cancel_sigs := v.cancel_sigs,
    unvault_emer_sigs := v.unvault_emer_sigs,
    unvault_sigs := v.unvault_sigs,
    emergency_signed := v.emergency_signed,
    unvault_secure := v.unvault_secure,
    unvault_signed := v.unvault_signed,
    sent_unvault_sig := false }

/-- Holds when the table has no `None` slot (Python
`None not in sigs`). -/
def tableFull (sigs : List (Option (List Nat))) : Bool :=
  !(sigs.contains none)

/-- One observable event of the fetcher subsystem.  The `recv*` events
are a sig-server answer for one slot inside the corresponding fetcher
loop (`i` is the 0-based slot, the server is polled with `i + 1`); the
`*Done` events are the completion steps at the end of the fetcher
bodies. -/
inductive SigEvent where
  /-- Loop of `update_emergency_signatures`: one slot answer. -/
  | recvEmer : Fin 4 → List Nat → SigEvent
  /-- Loop of `update_cancel_unvault`: one slot answer. -/
  | recvCancel : Fin 4 → List Nat → SigEvent
  /-- Loop of `update_unvault_emergency`: one slot answer. -/
  | recvUnvaultEmer : Fin 4 → List Nat → SigEvent
  /-- Loop of `update_unvault_transaction`: one slot answer (the raw optional
  server answer is stored, with no sighash assertion). -/
  | recvUnvault : Fin 4 → Option (List Nat) → SigEvent
  /-- End of `update_emergency_signatures`: the table filled up. -/
  | emergencyDone : SigEvent
  /-- End of `update_unvault_revocations`: the two sub-fetchers
  returned; publish our unvault signature when its gate holds. -/
  | unvaultRevocationsDone : SigEvent
  /-- End of `update_unvault_transaction`: the table filled up. -/
  | unvaultDone : SigEvent
deriving DecidableEq

/-- One event applied to a state.  `none` models an `AssertionError`
(the fetcher thread dies; nothing was stored). -/
def sigStep (s : SigState) : SigEvent → Option SigState
  | .recvEmer i sig =>
    -- body of the `update_emergency_signatures` loop: fetch only when
    -- the slot is empty; `assert sig[-1] == ALL_ANYONECANPAY` before
    -- storing
    if (s.emergency_sigs.getD i none).isSome then some s
    else if sig.getLast? = some ALL_ANYONECANPAY then
      some { s with emergency_sigs := s.emergency_sigs.set i (some sig) }
    else none
  | .recvCancel i sig =>
    if (s.cancel_sigs.getD i none).isSome then some s
    else if sig.getLast? = some ALL_ANYONECANPAY then
      some { s with cancel_sigs := s.cancel_sigs.set i (some sig) }
    else none
  | .recvUnvaultEmer i sig =>
    if (s.unvault_emer_sigs.getD i none).isSome then some s
    else if sig.getLast? = some ALL_ANYONECANPAY then
      some { s with unvault_emer_sigs := s.unvault_emer_sigs.set i (some sig) }
    else none
  | .recvUnvault i osig =>
    -- body of the `update_unvault_transaction` loop: the answer is
    -- stored as-is, without any sighash assertion
    if (s.unvault_sigs.getD i none).isSome then some s
    else some { s with unvault_sigs := s.unvault_sigs.set i osig }
  | .emergencyDone =>
    if tableFull s.emergency_sigs then
      some { s with emergency_signed := true }
    else some s
  | .unvaultRevocationsDone =>
    -- `update_unvault_revocations` after its two sub-fetchers return:
    -- `if None not in vault["unvault_emer_sigs"] + vault["cancel_sigs"]`
    -- (the emergency table takes no part in this gate)
    if tableFull s.unvault_emer_sigs && tableFull s.cancel_sigs then
      some { s with unvault_secure := true, sent_unvault_sig := true }
    else some s
  | .unvaultDone =>
    if tableFull s.unvault_sigs then
      some { s with unvault_signed := true }
    else some s

/-- Applies a list of events in order, aborting on an assertion
failure. -/
def sigRun (s : SigState) : List SigEvent → Option SigState
  | [] => some s
  | e :: evs =>
    match sigStep s e with
    | none => none
    | some s2 => sigRun s2 evs

/-! ## Theorems -/

/-- The trailing element of a signature built as `der ++ [flag]`. -/
theorem getLast_append_single (l : List Nat) (x : Nat) :
    (l ++ [x]).getLast? = some x := by
  induction l with
  | nil => rfl
  | cons a l ih =>
    cases l with
    | nil => rfl
    | cons b l => simpa using ih

/-- C3: for every context (so for every private key, transaction and
prevout value), `sign_unvault_tx` and `sign_spend_tx` produce signatures
whose trailing flag byte is SIGHASH_ALL (0x01), which is not
ANYONECANPAY; the revocation signatures shared with peers
(`sign_unvault_revault` and `sign_emergency_vault_tx` with `sign_all`
left `False`) carry the trailing flag byte
SIGHASH_ALL | SIGHASH_ANYONECANPAY (0x81). -/
theorem sighash_flag_policy (ctx : Ctx) (tx : CTx) (privkey : List Nat)
    (pubkeys : List (List Nat)) (pub_server : List Nat) (prev_value : Int) :
    (sign_unvault_tx ctx tx privkey pubkeys prev_value).getLast?
        = some SIGHASH_ALL
    ∧ (sign_spend_tx ctx tx privkey pubkeys pub_server prev_value).getLast?
        = some SIGHASH_ALL
    ∧ (sign_unvault_revault ctx tx privkey pubkeys pub_server prev_value
        false).getLast? = some ALL_ANYONECANPAY
    ∧ (sign_emergency_vault_tx ctx tx privkey pubkeys prev_value
        false).getLast? = some ALL_ANYONECANPAY
    ∧ SIGHASH_ALL = 0x01 ∧ ALL_ANYONECANPAY = 0x81
    ∧ SIGHASH_ALL &&& SIGHASH_ANYONECANPAY = 0 := by
  refine ⟨?_, ?_, ?_, ?_, by decide, by decide, by decide⟩ <;>
    simp [sign_unvault_tx, sign_spend_tx, sign_unvault_revault,
      sign_emergency_vault_tx, getLast_append_single]

/-- C4: for every transaction, four signatures and four pubkeys, the
witness stack of `form_spend_vault_txout` is exactly the empty dummy
element, the four signatures in slot order, then the vault script; the
witness stack of `form_unvault_spend` is the four signatures in reverse
slot order then the unvault script, with no leading empty element. -/
theorem witness_stack_shapes (tx : CTx)
    (s1 s2 s3 s4 p1 p2 p3 p4 pub_server : List Nat) :
    (form_spend_vault_txout tx [p1, p2, p3, p4] [s1, s2, s3, s4]).wit
      = [[[], s1, s2, s3, s4,
          serializeScript (vault_script [p1, p2, p3, p4])]]
    ∧ (form_unvault_spend tx [s1, s2, s3, s4] [p1, p2, p3, p4]
        pub_server).wit
      = [[s4, s3, s2, s1,
          serializeScript (unvault_script p1 p2 p3 p4 pub_server)]] := by
  exact ⟨rfl, rfl⟩

/-- C6: every template is built with nVersion 2, and the single input's
nSequence is 0xFFFFFFFF for the unvault, 0xFFFFFFFE for the cancel, the
vault-emergency and the unvault-emergency, and 6 for the spend. -/
theorem template_versions_and_sequences (ctx : Ctx)
    (vault_txid unvault_txid : List Nat) (vault_vout unvault_vout : Nat)
    (pubkeys emer_pubkeys : List (List Nat)) (pub_server : List Nat)
    (value : Int) (addresses : List (String × Int)) :
    (create_unvault_tx ctx vault_txid vault_vout pubkeys pub_server
        value).nVersion = 2
    ∧ (create_unvault_tx ctx vault_txid vault_vout pubkeys pub_server
        value).vin.map (fun txin => txin.nSequence) = [0xffffffff]
    ∧ (create_emergency_vault_tx ctx vault_txid vault_vout value
        emer_pubkeys).nVersion = 2
    ∧ (create_emergency_vault_tx ctx vault_txid vault_vout value
        emer_pubkeys).vin.map (fun txin => txin.nSequence) = [0xfffffffe]
    ∧ (create_cancel_tx ctx unvault_txid unvault_vout pubkeys
        value).nVersion = 2
    ∧ (create_cancel_tx ctx unvault_txid unvault_vout pubkeys
        value).vin.map (fun txin => txin.nSequence) = [0xfffffffe]
    ∧ (create_emer_unvault_tx ctx unvault_txid unvault_vout emer_pubkeys
        value).nVersion = 2
    ∧ (create_emer_unvault_tx ctx unvault_txid unvault_vout emer_pubkeys
        value).vin.map (fun txin => txin.nSequence) = [0xfffffffe]
    ∧ (create_spend_tx ctx unvault_txid unvault_vout
        addresses).nVersion = 2
    ∧ (create_spend_tx ctx unvault_txid unvault_vout
        addresses).vin.map (fun txin => txin.nSequence) = [6] := by
  exact ⟨rfl, rfl, rfl, rfl, rfl, rfl, rfl, rfl, rfl, rfl⟩

/-- C10: `form_spend_vault_txout`, `form_unvault_spend` and
`form_spend_tx` only attach a witness; the inputs (outpoints and
sequence numbers), the outputs, the version and the locktime of the
returned transaction equal those of the transaction passed in. -/
theorem form_functions_frame (tx : CTx) (pubkeys : List (List Nat))
    (sigs : List (List Nat)) (pub_server serv_pubkey : List Nat) :
    (form_spend_vault_txout tx pubkeys sigs).vin = tx.vin
    ∧ (form_spend_vault_txout tx pubkeys sigs).vout = tx.vout
    ∧ (form_spend_vault_txout tx pubkeys sigs).nVersion = tx.nVersion
    ∧ (form_spend_vault_txout tx pubkeys sigs).nLockTime = tx.nLockTime
    ∧ (form_unvault_spend tx sigs pubkeys pub_server).vin = tx.vin
    ∧ (form_unvault_spend tx sigs pubkeys pub_server).vout = tx.vout
    ∧ (form_unvault_spend tx sigs pubkeys pub_server).nVersion
        = tx.nVersion
    ∧ (form_unvault_spend tx sigs pubkeys pub_server).nLockTime
        = tx.nLockTime
    ∧ (form_spend_tx tx pubkeys serv_pubkey sigs).vin = tx.vin
    ∧ (form_spend_tx tx pubkeys serv_pubkey sigs).vout = tx.vout
    ∧ (form_spend_tx tx pubkeys serv_pubkey sigs).nVersion = tx.nVersion
    ∧ (form_spend_tx tx pubkeys serv_pubkey sigs).nLockTime
        = tx.nLockTime := by
  exact ⟨rfl, rfl, rfl, rfl, rfl, rfl, rfl, rfl, rfl, rfl, rfl, rfl⟩

/-- C2 evidence: the spend poller's decision on the specification's own
example -- one acked output of 10000 sats plus one watched vault change
output of 90000 sats, modelled by the address lists below -- is
`refuse`, while the specified acceptance predicate
accepts it; the poller only accepts when every output pays an acked
address.  The second refusal check in the source tests
`any(address not in acked_addresses)` where its own comment ("if there
is no output to a known address, refuse") describes
`all(address not in acked_addresses)`. -/
theorem spend_poller_refuses_change_mix :
    spend_acceptance_spec ["watched_addr"] ["acked_addr"]
        ["acked_addr", "watched_addr"] = true
    ∧ poll_for_spends_decision ["watched_addr"] ["acked_addr"]
        ["acked_addr", "watched_addr"] = false
    ∧ poll_for_spends_decision ["watched_addr"] ["acked_addr"]
        ["watched_addr"] = false := by
  exact ⟨rfl, rfl, rfl⟩

/-- A concrete 33-byte compressed-pubkey stand-in. -/
def testKey (b : Nat) : List Nat :=
  List.replicate 33 b

/-- C5 counterexample: at four concrete 33-byte pubkeys the serialized
emergency script begins with `0x02 0x70 0x11` -- a minimal two-byte push
of 4464 little-endian -- and not with `0x04 0x70 0x11` as the claim
states. -/
theorem emergency_script_prefix_counterexample :
    (serializeScript
      (emergency_script [testKey 1, testKey 2, testKey 3, testKey 4])).take 3
      = [0x02, 0x70, 0x11]
    ∧ ([0x02, 0x70, 0x11] : List Nat) ≠ [0x04, 0x70, 0x11] := by
  exact ⟨by decide, by decide⟩

/-- The script-number push of 4464: two little-endian bytes behind a
two-byte push opcode. -/
theorem scriptIntBytes_4464 : scriptIntBytes 4464 = [0x02, 0x70, 0x11] := by
  decide

/-- C5 (amended): for every list of four 33-byte pubkeys, the serialized
emergency script is `0x02 0x70 0x11` (a push of the two bytes of 4464
little-endian), OP_CHECKSEQUENCEVERIFY, OP_DROP, then the 4-of-4
multisig `OP_4 <e1> <e2> <e3> <e4> OP_4 OP_CHECKMULTISIG` with each key
pushed behind a `0x21` length byte. -/
theorem emergency_script_serialization (e1 e2 e3 e4 : List Nat)
    (h1 : e1.length = 33) (h2 : e2.length = 33) (h3 : e3.length = 33)
    (h4 : e4.length = 33) :
    serializeScript (emergency_script [e1, e2, e3, e4]) =
      [0x02, 0x70, 0x11, OP_CHECKSEQUENCEVERIFY, OP_DROP, OP_4] ++
        (33 :: e1) ++ (33 :: e2) ++ (33 :: e3) ++ (33 :: e4) ++
        [OP_4, OP_CHECKMULTISIG] := by
  simp [serializeScript, emergency_script, serializeElt,
    scriptIntBytes_4464, encode_op_pushdata, h1, h2, h3, h4,
    OP_CHECKSEQUENCEVERIFY, OP_DROP, OP_4, OP_CHECKMULTISIG]

/-- Witness for the amended C5 theorem at concrete keys. -/
theorem emergency_script_serialization_witness :
    serializeScript
        (emergency_script [testKey 5, testKey 6, testKey 7, testKey 8]) =
      [0x02, 0x70, 0x11, OP_CHECKSEQUENCEVERIFY, OP_DROP, OP_4] ++
        (33 :: testKey 5) ++ (33 :: testKey 6) ++ (33 :: testKey 7) ++
        (33 :: testKey 8) ++ [OP_4, OP_CHECKMULTISIG] :=
  emergency_script_serialization (testKey 5) (testKey 6) (testKey 7)
    (testKey 8) (by decide) (by decide) (by decide) (by decide)

/-- A fully concrete context used to instantiate the abstract crypto and
service functions on small values. -/
def testCtx : Ctx where
  sha256 := fun bs => bs
  addrOfScript := fun bs => toString bs
  addrScriptPubKey := fun _ => []
  ecdsaSign := fun k h => k ++ h
  signatureHash := fun _ _ _ _ _ => []
  getTxid := fun _ => []
  hexOf := fun bs => toString bs
  lx := fun _ => []
  derive_pubkey := fun s i => [s.val, i]
  our_privkey := fun i => [i]
  ourIdx := 0
  cosigner_pubkey := [9]
  emergency_pubkeys := [[1], [2], [3], [4]]
  sigserver_feerate := fun _ _ => 0
  bitcoind_getfeerate := fun _ => 0
  tx_size := fun _ => 0
  tx_feerate := fun _ _ => 0
  bump_feerate := fun tx _ _ => tx

/-- A concrete vault record whose four signature tables are complete. -/
def testVaultRec : VaultRec where
  txid := "t"
  vout := 0
  amount := 100
  pubkeys := get_pubkeys testCtx 0
  privkey := [0]
  address := get_vault_address testCtx 0
  emergency_tx := create_emergency_vault_tx testCtx [] 0 100
    testCtx.emergency_pubkeys
  emergency_sigs := List.replicate 4 (some [129])
  emergency_signed := false
  unvault_tx := create_unvault_tx testCtx [] 0 (get_pubkeys testCtx 0)
    [9] 100
  unvault_sigs := List.replicate 4 (some [1])
  unvault_signed := false
  cancel_tx := create_cancel_tx testCtx [] 0 (get_pubkeys testCtx 0) 100
  cancel_sigs := List.replicate 4 (some [129])
  unvault_emer_tx := create_emer_unvault_tx testCtx [] 0
    testCtx.emergency_pubkeys 100
  unvault_emer_sigs := List.replicate 4 (some [129])
  unvault_secure := false

/-- C7 counterexample: with all signatures gathered, the broadcast-time
target fee-rate for the unvault-emergency transaction is fetched from
bitcoind under the key "cancel", not "emergency" (while the
vault-emergency fetches under "emergency"). -/
theorem unvault_emer_feerate_key_counterexample :
    (get_signed_unvault_emergency_tx testCtx testVaultRec).2
      = [.bitcoind "cancel"]
    ∧ FeerateFetch.bitcoind "cancel" ≠ FeerateFetch.bitcoind "emergency"
    ∧ (get_signed_emergency_tx testCtx testVaultRec).2
      = [.bitcoind "emergency"] := by
  refine ⟨rfl, by decide, rfl⟩

/-- C7 (amended): the target fee-rate is fetched under the key
"emergency" when building the vault-emergency and unvault-emergency
templates and under "cancel" when building the cancel and unvault
templates; before broadcast, the pre-signed fee-rate of the
vault-emergency is compared against the target fetched under
"emergency" and that of the cancel under "cancel" -- but the
unvault-emergency broadcast check fetches its target under "cancel".
The unvault broadcast path performs no target fee-rate fetch. -/
theorem feerate_fetch_keys (ctx : Ctx) (txid : String) (vout : Nat)
    (amount : Int) (pubkeys : List (List Nat)) (privkey : List Nat)
    (utx : CTx) (v : VaultRec) (h : utx.vout.length = 1) :
    (create_sign_emergency ctx txid vout amount pubkeys privkey).map
        (fun r => r.fetches) = .ok [.sigserver "emergency"]
    ∧ (create_sign_unvault ctx txid vout amount pubkeys privkey).fetches
        = [.sigserver "cancel"]
    ∧ (create_sign_cancel ctx utx pubkeys privkey).map
        (fun r => r.fetches) = .ok [.sigserver "cancel"]
    ∧ (create_sign_unvault_emer ctx utx pubkeys privkey).map
        (fun r => r.fetches) = .ok [.sigserver "emergency"]
    ∧ ((get_signed_emergency_tx ctx v).2 = []
        ∨ (get_signed_emergency_tx ctx v).2 = [.bitcoind "emergency"])
    ∧ ((get_signed_cancel_tx ctx v).2 = []
        ∨ (get_signed_cancel_tx ctx v).2 = [.bitcoind "cancel"])
    ∧ ((get_signed_unvault_emergency_tx ctx v).2 = []
        ∨ (get_signed_unvault_emergency_tx ctx v).2 = [.bitcoind "cancel"])
    ∧ (get_signed_unvault_tx ctx v).2 = [] := by
  refine ⟨?_, rfl, ?_, ?_, ?_, ?_, ?_, ?_⟩
  · simp [create_sign_emergency, create_emergency_vault_tx,
      create_spend_vault_txout, Except.map]
  · simp [create_sign_cancel, create_cancel_tx, create_unvault_spend, h,
      Except.map]
  · simp [create_sign_unvault_emer, create_emer_unvault_tx,
      create_unvault_spend, Except.map]
  · unfold get_signed_emergency_tx
    split
    · exact Or.inl rfl
    · dsimp only
      split
      · exact Or.inr rfl
      · exact Or.inr rfl
  · unfold get_signed_cancel_tx
    split
    · exact Or.inl rfl
    · dsimp only
      split
      · exact Or.inr rfl
      · exact Or.inr rfl
  · unfold get_signed_unvault_emergency_tx
    split
    · exact Or.inl rfl
    · dsimp only
      split
      · exact Or.inr rfl
      · exact Or.inr rfl
  · unfold get_signed_unvault_tx
    split
    · rfl
    · rfl

/-- Witness for the amended C7 theorem at a concrete context, input
transaction and vault record. -/
theorem feerate_fetch_keys_witness :
    (create_sign_emergency testCtx "t" 0 100 (get_pubkeys testCtx 0)
        [0]).map (fun r => r.fetches) = .ok [.sigserver "emergency"]
    ∧ (create_sign_unvault testCtx "t" 0 100 (get_pubkeys testCtx 0)
        [0]).fetches = [.sigserver "cancel"]
    ∧ (create_sign_cancel testCtx testVaultRec.unvault_tx
        (get_pubkeys testCtx 0) [0]).map (fun r => r.fetches)
        = .ok [.sigserver "cancel"]
    ∧ (create_sign_unvault_emer testCtx testVaultRec.unvault_tx
        (get_pubkeys testCtx 0) [0]).map (fun r => r.fetches)
        = .ok [.sigserver "emergency"]
    ∧ ((get_signed_emergency_tx testCtx testVaultRec).2 = []
        ∨ (get_signed_emergency_tx testCtx testVaultRec).2
          = [.bitcoind "emergency"])
    ∧ ((get_signed_cancel_tx testCtx testVaultRec).2 = []
        ∨ (get_signed_cancel_tx testCtx testVaultRec).2
          = [.bitcoind "cancel"])
    ∧ ((get_signed_unvault_emergency_tx testCtx testVaultRec).2 = []
        ∨ (get_signed_unvault_emergency_tx testCtx testVaultRec).2
          = [.bitcoind "cancel"])
    ∧ (get_signed_unvault_tx testCtx testVaultRec).2 = [] :=
  feerate_fetch_keys testCtx "t" 0 100 (get_pubkeys testCtx 0) [0]
    testVaultRec.unvault_tx testVaultRec (by decide)

/-- A concrete `listunspent` entry whose address is the vault address at
derivation index 0. -/
def testOutput0 : ListUnspentEntry where
  txid := "t"
  vout := 0
  amount := 100
  address := get_vault_address testCtx 0

/-- C8 counterexample: with `current_index = 1` and `max_index = 3`, a
UTXO at the index-0 vault address matches no index in the half-open
range from `current_index` to `max_index`, yet the ingest succeeds:
`guess_index` scans from 0, finds index 0, and `add_new_vault` returns a
record instead of raising. -/
theorem guess_index_range_counterexample :
    (∀ i < 3, 1 ≤ i →
      get_vault_address testCtx i ≠ get_vault_address testCtx 0)
    ∧ guess_index testCtx 3 (get_vault_address testCtx 0) = some 0
    ∧ (add_new_vault testCtx 3 testOutput0).toOption.isSome = true := by
  refine ⟨by decide, by decide, by decide⟩

/-- Answers of `guess_index` imply a matching address at an index below
`max_index`. -/
theorem guess_index_some (ctx : Ctx) (max_index : Nat) (addr : String)
    (index : Nat) (h : guess_index ctx max_index addr = some index) :
    index < max_index ∧ addr = get_vault_address ctx index := by
  have hmem := List.mem_of_find?_eq_some h
  have hp := List.find?_some h
  refine ⟨List.mem_range.mp hmem, ?_⟩
  exact eq_of_beq hp

/-- The scan of `guess_index` fails exactly when no index below `max_index`
matches. -/
theorem guess_index_none (ctx : Ctx) (max_index : Nat) (addr : String) :
    guess_index ctx max_index addr = none ↔
      ∀ i < max_index, addr ≠ get_vault_address ctx i := by
  unfold guess_index
  rw [List.find?_eq_none]
  constructor
  · intro h i hi
    have := h i (List.mem_range.mpr hi)
    simpa using this
  · intro h i hi
    have := h i (List.mem_range.mp hi)
    simpa using this

/-- When `guess_index` finds an index, the rest of `add_new_vault`
always succeeds and uses the keys derived at that index. -/
theorem add_new_vault_ok_of_guess (ctx : Ctx) (max_index : Nat)
    (output : ListUnspentEntry) (index : Nat)
    (h : guess_index ctx max_index output.address = some index) :
    ∃ v msgs log,
      add_new_vault ctx max_index output = .ok (v, msgs, log)
      ∧ v.pubkeys = get_pubkeys ctx index
      ∧ v.privkey = ctx.our_privkey index := by
  unfold add_new_vault
  rw [h]
  simp [create_sign_emergency, create_emergency_vault_tx,
    create_spend_vault_txout, create_sign_unvault, create_unvault_tx,
    create_sign_cancel, create_cancel_tx, create_unvault_spend,
    create_sign_unvault_emer, create_emer_unvault_tx, Except.bind, bind]

/-- C8 (amended): the BIP32 index of a new vault UTXO is determined by
matching its address against the vault addresses of every index in the
half-open range from 0 (not from `current_index`) to `max_index`; the
ingest raises, and no record is produced, exactly when no index in that
range matches, and on success the record's keys are those of the first
matching index. -/
theorem add_new_vault_index_scan (ctx : Ctx) (max_index : Nat)
    (output : ListUnspentEntry) :
    ((add_new_vault ctx max_index output).toOption.isSome = true ↔
      ∃ i < max_index, output.address = get_vault_address ctx i)
    ∧ ∀ v msgs log,
        add_new_vault ctx max_index output = .ok (v, msgs, log) →
        ∃ i, guess_index ctx max_index output.address = some i
          ∧ i < max_index
          ∧ output.address = get_vault_address ctx i
          ∧ v.pubkeys = get_pubkeys ctx i
          ∧ v.privkey = ctx.our_privkey i := by
  constructor
  · constructor
    · intro hok
      cases hg : guess_index ctx max_index output.address with
      | none =>
        rw [add_new_vault, hg] at hok
        simp [Except.toOption] at hok
      | some index =>
        obtain ⟨hlt, haddr⟩ := guess_index_some ctx max_index
          output.address index hg
        exact ⟨index, hlt, haddr⟩
    · intro hex
      cases hg : guess_index ctx max_index output.address with
      | none =>
        obtain ⟨i, hi, haddr⟩ := hex
        exact absurd haddr ((guess_index_none ctx max_index
          output.address).mp hg i hi)
      | some index =>
        obtain ⟨v, msgs, log, hok, _, _⟩ := add_new_vault_ok_of_guess
          ctx max_index output index hg
        rw [hok]
        rfl
  · intro v msgs log hok
    cases hg : guess_index ctx max_index output.address with
    | none =>
      rw [add_new_vault, hg] at hok
      simp at hok
    | some index =>
      obtain ⟨hlt, haddr⟩ := guess_index_some ctx max_index
        output.address index hg
      obtain ⟨v2, msgs2, log2, hok2, hpub, hpriv⟩ :=
        add_new_vault_ok_of_guess ctx max_index output index hg
      rw [hok] at hok2
      simp only [Except.ok.injEq, Prod.mk.injEq] at hok2
      obtain ⟨h4, h5, h6⟩ := hok2
      subst h4
      exact ⟨index, rfl, hlt, haddr, hpub, hpriv⟩

/-- Filling a slot of a full table keeps it full. -/
theorem tableFull_set_some (t : List (Option (List Nat))) (i : Nat)
    (x : List Nat) (h : tableFull t = true) :
    tableFull (t.set i (some x)) = true := by
  have h2 : none ∉ t := by simpa [tableFull, List.contains] using h
  have h3 : (none : Option (List Nat)) ∉ t.set i (some x) := by
    intro hmem
    rcases List.mem_or_eq_of_mem_set hmem with h4 | h4
    · exact h2 h4
    · cases h4
  simpa [tableFull, List.contains] using h3

/-- One fetcher event preserves the gate invariant: if our unvault
signature has been sent, the cancel and unvault-emergency tables are
complete. -/
theorem sigStep_preserves_gate (s s2 : SigState) (e : SigEvent)
    (h : sigStep s e = some s2)
    (hinv : s.sent_unvault_sig = true →
      tableFull s.cancel_sigs = true ∧ tableFull s.unvault_emer_sigs = true) :
    s2.sent_unvault_sig = true →
      tableFull s2.cancel_sigs = true
      ∧ tableFull s2.unvault_emer_sigs = true := by
  cases e with
  | recvEmer i sig =>
    simp only [sigStep] at h
    split at h
    · cases h; exact hinv
    · split at h
      · cases h; exact hinv
      · cases h
  | recvCancel i sig =>
    simp only [sigStep] at h
    split at h
    · cases h; exact hinv
    · split at h
      · cases h
        intro hsent
        obtain ⟨hc, hu⟩ := hinv hsent
        exact ⟨tableFull_set_some _ _ _ hc, hu⟩
      · cases h
  | recvUnvaultEmer i sig =>
    simp only [sigStep] at h
    split at h
    · cases h; exact hinv
    · split at h
      · cases h
        intro hsent
        obtain ⟨hc, hu⟩ := hinv hsent
        exact ⟨hc, tableFull_set_some _ _ _ hu⟩
      · cases h
  | recvUnvault i osig =>
    simp only [sigStep] at h
    split at h
    · cases h; exact hinv
    · cases h; exact hinv
  | emergencyDone =>
    simp only [sigStep] at h
    split at h
    · cases h; exact hinv
    · cases h; exact hinv
  | unvaultRevocationsDone =>
    simp only [sigStep] at h
    split at h
    · next hgate =>
      cases h
      intro _
      have h5 := Bool.and_eq_true_iff.mp hgate
      exact ⟨h5.2, h5.1⟩
    · cases h; exact hinv
  | unvaultDone =>
    simp only [sigStep] at h
    split at h
    · cases h; exact hinv
    · cases h; exact hinv

/-- The gate invariant holds in every state reachable by a run. -/
theorem sigRun_gate_invariant (evs : List SigEvent) (s0 s1 : SigState)
    (h : sigRun s0 evs = some s1)
    (hinv : s0.sent_unvault_sig = true →
      tableFull s0.cancel_sigs = true
      ∧ tableFull s0.unvault_emer_sigs = true) :
    s1.sent_unvault_sig = true →
      tableFull s1.cancel_sigs = true
      ∧ tableFull s1.unvault_emer_sigs = true := by
  induction evs generalizing s0 with
  | nil =>
    unfold sigRun at h
    cases h
    exact hinv
  | cons e rest ih =>
    unfold sigRun at h
    cases hstep : sigStep s0 e with
    | none => rw [hstep] at h; cases h
    | some smid =>
      rw [hstep] at h
      exact ih smid h (sigStep_preserves_gate s0 smid e hstep hinv)

/-- C1 (amended): running the fetchers from the fresh state of any vault
record, whenever the local unvault signature has been sent to the
sig-server the cancel and unvault-emergency signature tables are
complete -- this is the exact gate of `update_unvault_revocations`; the
vault-emergency table is not part of it. -/
theorem unvault_sig_gated_on_revocations (v : VaultRec)
    (evs : List SigEvent) (s : SigState)
    (hrun : sigRun (freshSigState v) evs = some s)
    (hsent : s.sent_unvault_sig = true) :
    tableFull s.cancel_sigs = true
    ∧ tableFull s.unvault_emer_sigs = true := by
  refine sigRun_gate_invariant evs (freshSigState v) s hrun ?_ hsent
  intro hc
  simp [freshSigState] at hc

/-- A fresh vault record holding only our own signatures: the ALL ones
in the emergency, cancel and unvault tables and the ALL | ANYONECANPAY
one in the unvault-emergency table, as `add_new_vault` leaves them. -/
def freshVaultRec : VaultRec :=
  { testVaultRec with
    emergency_sigs := ownOnlyTable 0 [1],
    cancel_sigs := ownOnlyTable 0 [1],
    unvault_emer_sigs := ownOnlyTable 0 [129],
    unvault_sigs := ownOnlyTable 0 [1] }

/-- A run in which the three peers' cancel and unvault-emergency
signatures arrive and `update_unvault_revocations` completes, while no
peer emergency signature has been fetched yet. -/
def revocationsFirstEvents : List SigEvent :=
  [.recvCancel 1 [129], .recvCancel 2 [129], .recvCancel 3 [129],
   .recvUnvaultEmer 1 [129], .recvUnvaultEmer 2 [129],
   .recvUnvaultEmer 3 [129], .unvaultRevocationsDone]

/-- C1 counterexample: from a fresh state the engine can reach a state
where the local unvault signature has been sent while the emergency
signature table is still incomplete, because the gate of
`update_unvault_revocations` only inspects the cancel and
unvault-emergency tables. -/
theorem unvault_sig_sent_before_emergency_table :
    (sigRun (freshSigState freshVaultRec) revocationsFirstEvents).map
      (fun s => (s.sent_unvault_sig, tableFull s.emergency_sigs))
      = some (true, false) := by
  decide

/-- Witness for the amended C1 theorem on a concrete run that does send
the unvault signature. -/
theorem unvault_sig_gated_on_revocations_witness :
    ∃ s, sigRun (freshSigState freshVaultRec) revocationsFirstEvents
        = some s
      ∧ s.sent_unvault_sig = true
      ∧ tableFull s.cancel_sigs = true
      ∧ tableFull s.unvault_emer_sigs = true := by
  cases hr : sigRun (freshSigState freshVaultRec) revocationsFirstEvents with
  | none =>
    have h2 : (sigRun (freshSigState freshVaultRec)
        revocationsFirstEvents).isSome = true := by decide
    rw [hr] at h2
    cases h2
  | some s =>
    have h2 : (sigRun (freshSigState freshVaultRec)
        revocationsFirstEvents).map (fun t => t.sent_unvault_sig)
        = some true := by decide
    rw [hr] at h2
    have hsent : s.sent_unvault_sig = true := by
      simpa using h2
    exact ⟨s, rfl, hsent,
      unvault_sig_gated_on_revocations freshVaultRec
        revocationsFirstEvents s hr hsent⟩

/-- C9 (amended): a peer signature received by the emergency, cancel or
unvault-emergency fetcher into an empty slot is checked by
`assert sig[-1] == ALL_ANYONECANPAY` before being stored; on a
mismatched flag byte the fetcher aborts and nothing is stored.  The
unvault fetcher stores the received answer without any sighash check. -/
theorem revocation_fetchers_check_sighash (s : SigState) (i : Fin 4)
    (sig : List Nat)
    (he : s.emergency_sigs.getD i none = none)
    (hc : s.cancel_sigs.getD i none = none)
    (hu : s.unvault_emer_sigs.getD i none = none)
    (hv : s.unvault_sigs.getD i none = none)
    (hflag : sig.getLast? ≠ some ALL_ANYONECANPAY) :
    sigStep s (.recvEmer i sig) = none
    ∧ sigStep s (.recvCancel i sig) = none
    ∧ sigStep s (.recvUnvaultEmer i sig) = none
    ∧ sigStep s (.recvUnvault i (some sig))
      = some { s with unvault_sigs := s.unvault_sigs.set i (some sig) } := by
  simp only [List.getD, List.get?_eq_getElem?] at he hc hu hv
  refine ⟨?_, ?_, ?_, ?_⟩ <;>
    simp [sigStep, List.getD, he, hc, hu, hv, hflag]

/-- C9 counterexample: the unvault fetcher stores a signature whose
trailing flag byte is SIGHASH_ALL (0x01), not ALL | ANYONECANPAY (0x81),
without any assertion firing. -/
theorem unvault_fetcher_stores_any_flag :
    ([1] : List Nat).getLast? = some 1
    ∧ (1 : Nat) ≠ ALL_ANYONECANPAY
    ∧ (sigStep (freshSigState freshVaultRec)
        (.recvUnvault 1 (some [1]))).map
        (fun s => s.unvault_sigs.getD 1 none) = some (some [1]) := by
  refine ⟨rfl, by decide, by decide⟩

/-- Witness for the amended C9 theorem at a concrete state and slot. -/
theorem revocation_fetchers_check_sighash_witness :
    sigStep (freshSigState freshVaultRec) (.recvEmer 1 [0]) = none
    ∧ sigStep (freshSigState freshVaultRec) (.recvCancel 1 [0]) = none
    ∧ sigStep (freshSigState freshVaultRec) (.recvUnvaultEmer 1 [0]) = none
    ∧ sigStep (freshSigState freshVaultRec) (.recvUnvault 1 (some [0]))
      = some { freshSigState freshVaultRec with
               unvault_sigs :=
                 (freshSigState freshVaultRec).unvault_sigs.set 1
                   (some [0]) } :=
  revocation_fetchers_check_sighash (freshSigState freshVaultRec) 1 [0]
    (by decide) (by decide) (by decide) (by decide) (by decide)

/-- Witness for the amended C8 theorem at a concrete context, window and
output: the ingest succeeds and uses the keys of matching index 0. -/
theorem add_new_vault_index_scan_witness :
    ∃ r, add_new_vault testCtx 3 testOutput0 = .ok r
      ∧ ∃ i, guess_index testCtx 3 testOutput0.address = some i
        ∧ i < 3
        ∧ testOutput0.address = get_vault_address testCtx i
        ∧ r.1.pubkeys = get_pubkeys testCtx i
        ∧ r.1.privkey = testCtx.our_privkey i := by
  cases hr : add_new_vault testCtx 3 testOutput0 with
  | error e =>
    have h2 : (add_new_vault testCtx 3 testOutput0).toOption.isSome
        = true := by decide
    rw [hr] at h2
    simp [Except.toOption] at h2
  | ok r =>
    exact ⟨r, rfl,
      (add_new_vault_index_scan testCtx 3 testOutput0).2 r.1 r.2.1 r.2.2
        (by rw [hr])⟩
